import Mathlib

/-!
Verification of the lab-management relay server and geofence evaluator.

The definitions below are a shallow embedding of the JavaScript sources:
  - `src/utils/geofence.js` (active version, top of file): `validateLocation`,
    `isWithinGeofence` with its constant 30 m GPS accuracy buffer;
  - `src/unnamed/part_004` (the unified relay server): the WebSocket message
    router, its per-message handlers, and the two in-memory stores
    `webSocketSessions` and `webSocketConnections`.

JavaScript `Map`s are modelled as association lists, WebSocket handles as
opaque numeric ids, `undefined`-able fields as `Option`, and the JavaScript
falsiness conventions used by the code (`x || d`, `x !== undefined ? x : d`)
are modelled explicitly.  Outbound `ws.send` calls become a list of output
messages; `sendMessage`'s readiness check is modelled by an environment
predicate saying which handles are open.
-/

namespace LabRelay

/-! ### Geofence evaluator, from src/utils/geofence.js -/

/-- Result of a JavaScript `parseFloat`: either a rational value or `NaN`. -/
inductive JsNum where
  | num (q : ℚ)
  | nan
deriving DecidableEq

def JsNum.isNaN : JsNum → Bool
  | .nan => true
  | .num _ => false

/-- Numeric value of a parsed coordinate; only used after validation,
which guarantees the `num` case. -/
def JsNum.getQ : JsNum → ℚ
  | .num q => q
  | .nan => 0

/-- A location object with `latitude` and `longitude` fields, as they come
out of `parseFloat`. -/
structure JsLoc where
  latitude : JsNum
  longitude : JsNum
deriving DecidableEq

/-- `validateLocation` from geofence.js: `parseFloat` both coordinates and
check they are numbers in range lat ∈ [-90,90], lng ∈ [-180,180]. -/
def validateLocation (latitude longitude : JsNum) : Bool :=
  match latitude, longitude with
  | .num lat, .num lng =>
      decide (-90 ≤ lat) && decide (lat ≤ 90) &&
      decide (-180 ≤ lng) && decide (lng ≤ 180)
  | _, _ => false

/-- The constant `GPS_ACCURACY_BUFFER` in `isWithinGeofence` (30 meters). -/
def GPS_ACCURACY_BUFFER : ℚ := 30

/-- `effectiveRadius = radiusInMeters + GPS_ACCURACY_BUFFER` as computed by
`isWithinGeofence`. -/
def effectiveRadius (radiusInMeters : ℚ) : ℚ :=
  radiusInMeters + GPS_ACCURACY_BUFFER

/-- The tolerance the evaluator adds to a nominal radius before deciding
inside/outside: the difference between the effective and the nominal radius. -/
def geofenceTolerance (radiusInMeters : ℚ) : ℚ :=
  effectiveRadius radiusInMeters - radiusInMeters

/-- Errors thrown by `isWithinGeofence` on invalid input. -/
inductive GeoError where
  | invalidLocationData
  | invalidUserLocation
  | invalidLabLocation
deriving DecidableEq

/-- The object returned by `isWithinGeofence` (bearing omitted: it is
diagnostic output computed by the external geolib library). -/
structure GeofenceResult where
  isWithin : Bool
  distance : ℚ
  radiusInMeters : ℚ
  effRadius : ℚ
  gpsAccuracyBuffer : ℚ
  isWithinOriginalRadius : Bool
  isWithinGPSBuffer : Bool
deriving DecidableEq

/-- `isWithinGeofence` from geofence.js.  The great-circle distance is the
external geolib collaborator, passed in as `dist` (taking the four parsed
coordinates).  Null inputs and validation failures throw; otherwise the
result compares the distance against `radius + GPS_ACCURACY_BUFFER`. -/
def isWithinGeofence (dist : ℚ → ℚ → ℚ → ℚ → ℚ)
    (userLocation labLocation : Option JsLoc) (radius : ℚ) :
    Except GeoError GeofenceResult :=
  match userLocation, labLocation with
  | none, _ => .error .invalidLocationData
  | some _, none => .error .invalidLocationData
  | some u, some l =>
    if !validateLocation u.latitude u.longitude then
      .error .invalidUserLocation
    else if !validateLocation l.latitude l.longitude then
      .error .invalidLabLocation
    else
      let d := dist u.latitude.getQ u.longitude.getQ l.latitude.getQ l.longitude.getQ
      let er := radius + GPS_ACCURACY_BUFFER
      .ok { isWithin := decide (d ≤ er)
            distance := d
            radiusInMeters := radius
            effRadius := er
            gpsAccuracyBuffer := GPS_ACCURACY_BUFFER
            isWithinOriginalRadius := decide (d ≤ radius)
            isWithinGPSBuffer := decide (d ≤ er) && decide (radius < d) }

/-- Whether the evaluator returned a result rather than throwing. -/
def geofenceOk (r : Except GeoError GeofenceResult) : Bool :=
  match r with
  | .ok _ => true
  | .error _ => false

/-! ### Relay server data model, from src/unnamed/part_004 -/

/-- Opaque WebSocket handle. -/
abbrev WsId := ℕ

/-- The `type` field of a connection entry. -/
inductive Role where
  | desktop
  | mobile
deriving DecidableEq

/-- An entry of `webSocketConnections`: connectionId maps to the handle, the
session id and the role given at registration time. -/
structure Conn where
  ws : WsId
  sessionId : String
  connType : Role
deriving DecidableEq

/-- The placeholder device-info object built when the payload omits one. -/
structure DeviceInfo where
  platform : String
  timestamp : ℕ
deriving DecidableEq

/-- The `authData` payload of an inbound proof message; every field may be
absent. -/
structure AuthData where
  credential : Option String
  userEmail : Option String
  deviceInfo : Option DeviceInfo
deriving DecidableEq

/-- The `type` field of a stored proof record. -/
inductive ProofKind where
  | authentication
  | creation
deriving DecidableEq

/-- `session.authData` as stored by the proof handlers. -/
structure AuthRecord where
  success : Bool
  credential : String
  userEmail : Option String
  deviceInfo : DeviceInfo
  timestamp : ℕ
  kind : ProofKind
deriving DecidableEq

/-- A location payload as forwarded and stored in `session.locationData`. -/
structure LocationRec where
  latitude : JsNum
  longitude : JsNum
  accuracy : Option ℚ
  altitude : Option ℚ
  timestamp : Option ℕ
deriving DecidableEq

/-- `session.locationCheckResult`: the GeofenceOutcome reported by the
desktop via `location_check_complete`. -/
structure CheckResult where
  success : Bool
  distance : Option ℚ
  location : Option LocationRec
  error : Option String
deriving DecidableEq

/-- An entry of `webSocketSessions`.  Fields that the JavaScript object may
lack until first assignment (`mode`, `locationData`, `locationCheckResult`)
are `Option`s starting at `none`. -/
structure Session where
  desktopWs : Option WsId
  mobileWs : Option WsId
  authData : Option AuthRecord
  userEmail : Option String
  labName : Option String
  requireLocation : Bool
  mode : Option String
  locationData : Option LocationRec
  locationCheckResult : Option CheckResult
  createdAt : ℕ
deriving DecidableEq

/-- Data of a `register_desktop` message. -/
structure RegDesktopData where
  sessionId : String
  userEmail : Option String
  labName : Option String
deriving DecidableEq

/-- Data of a `register_mobile` message. -/
structure RegMobileData where
  sessionId : String
  userEmail : Option String
  challenge : Option String
  requireLocation : Option Bool
  mode : Option String
deriving DecidableEq

/-- Data of a `location_check_complete` message. -/
structure CheckCompleteData where
  success : Bool
  distance : Option ℚ
  location : Option LocationRec
  error : Option String
deriving DecidableEq

/-- The inbound message catalogue of the router's switch statement; any
other `type` string falls into `unknownType`, the switch's default case. -/
inductive ClientMsg where
  | register_desktop (d : RegDesktopData)
  | register_mobile (d : RegMobileData)
  | passkey_auth_success (authData : Option AuthData)
  | passkey_created (authData : Option AuthData)
  | request_location (authData : Option AuthData) (requestId : Option String)
  | location_received (location : LocationRec) (authData : Option AuthData)
  | location_check_complete (d : CheckCompleteData)
  | ping
  | unknownType (t : String)
deriving DecidableEq

/-- Outbound message types sent by the relay.  Constructors with `_fwd`
are the relay-to-peer forwards that reuse an inbound type name. -/
inductive OutPayload where
  | connected
  | desktop_registered
  | mobile_registered
  | mobile_connected
  | passkey_verified_confirmed
  | passkey_verified
  | passkey_created_confirmed
  | passkey_created_fwd
  | request_location_from_mobile
  | request_location_fwd
  | location_received_fwd
  | access_granted
  | access_denied
  | location_check_complete_out (success : Bool)
  | pong
  | errorMsg (message : String)
deriving DecidableEq

/-- One outbound send: target handle and message type. -/
structure OutMsg where
  target : WsId
  payload : OutPayload
deriving DecidableEq

/-- Ambient facts the handlers read: which handles are open
(`ws.readyState === OPEN`) and the current clock (`Date.now()`). -/
structure Env where
  isLive : WsId → Bool
  now : ℕ

/-- The two global stores of part_004. -/
structure RelayState where
  webSocketSessions : List (String × Session)
  webSocketConnections : List (String × Conn)
deriving DecidableEq

/-- JavaScript `Map.get`. -/
def mapGet {α : Type} (m : List (String × α)) (k : String) : Option α :=
  match m with
  | [] => none
  | (k', v) :: rest => if k' = k then some v else mapGet rest k

/-- JavaScript `Map.set`: replace in place or append. -/
def mapSet {α : Type} (m : List (String × α)) (k : String) (v : α) :
    List (String × α) :=
  match m with
  | [] => [(k, v)]
  | (k', v') :: rest =>
      if k' = k then (k, v) :: rest else (k', v') :: mapSet rest k v

/-- JavaScript truthiness of a possibly-absent string: `undefined` and the
empty string are falsy. -/
def jsTruthy : Option String → Bool
  | none => false
  | some s => !(s == "")

/-- JavaScript `x || d` on a possibly-absent string. -/
def jsOrStr (x : Option String) (d : String) : String :=
  match x with
  | some s => if s == "" then d else s
  | none => d

/-- JavaScript `x || d` where the default is itself possibly absent
(`authData.userEmail || session.userEmail`). -/
def jsOrOptStr (x : Option String) (d : Option String) : Option String :=
  if jsTruthy x then x else d

/-- `sendMessage(ws, type, data)`: sends only when the handle is open,
otherwise a silent no-op. -/
def sendMessage (env : Env) (ws : WsId) (p : OutPayload) : List OutMsg :=
  if env.isLive ws then [⟨ws, p⟩] else []

/-- `broadcastToSession(sessionId, type, data, excludeWs)`: look the session
up and fire at the desktop and mobile slots, skipping the excluded handle. -/
def broadcastToSession (env : Env) (st : RelayState) (sessionId : String)
    (p : OutPayload) (excludeWs : Option WsId) : List OutMsg :=
  match mapGet st.webSocketSessions sessionId with
  | some session =>
      (match session.desktopWs with
       | some d => if excludeWs = some d then [] else sendMessage env d p
       | none => []) ++
      (match session.mobileWs with
       | some m => if excludeWs = some m then [] else sendMessage env m p
       | none => [])
  | none => []

/-! ### Message handlers, from src/unnamed/part_004 -/

/-- `handleDesktopRegistration`: always records the connection, creates the
session on first sight of the id (with `requireLocation` defaulting to true)
or rebinds the desktop slot, and acks `desktop_registered`. -/
def handleDesktopRegistration (env : Env) (st : RelayState) (ws : WsId)
    (connectionId : String) (d : RegDesktopData) : RelayState × List OutMsg :=
  let conns := mapSet st.webSocketConnections connectionId
      ⟨ws, d.sessionId, .desktop⟩
  let sessions :=
    match mapGet st.webSocketSessions d.sessionId with
    | none =>
        mapSet st.webSocketSessions d.sessionId
          { desktopWs := some ws
            mobileWs := none
            authData := none
            userEmail := d.userEmail
            labName := d.labName
            requireLocation := true
            mode := none
            locationData := none
            locationCheckResult := none
            createdAt := env.now }
    | some s =>
        mapSet st.webSocketSessions d.sessionId { s with desktopWs := some ws }
  (⟨sessions, conns⟩, sendMessage env ws .desktop_registered)

/-- `handleMobileRegistration`: records the connection first, then either
attaches the mobile (also overwriting `requireLocation` and `mode`), acks and
notifies the desktop, or, for an unknown session id, replies an
`Invalid session ID` error without touching the session store. -/
def handleMobileRegistration (env : Env) (st : RelayState) (ws : WsId)
    (connectionId : String) (d : RegMobileData) : RelayState × List OutMsg :=
  let conns := mapSet st.webSocketConnections connectionId
      ⟨ws, d.sessionId, .mobile⟩
  match mapGet st.webSocketSessions d.sessionId with
  | some session =>
      let session' := { session with
        mobileWs := some ws
        requireLocation := d.requireLocation.getD true
        mode := some (jsOrStr d.mode "login") }
      let st' : RelayState :=
        ⟨mapSet st.webSocketSessions d.sessionId session', conns⟩
      (st', sendMessage env ws .mobile_registered ++
            broadcastToSession env st' d.sessionId .mobile_connected (some ws))
  | none =>
      (⟨st.webSocketSessions, conns⟩,
       sendMessage env ws (.errorMsg "Invalid session ID"))

/-- The record the proof handlers store into `session.authData`: success is
hard-coded to true and absent payload fields get fixed defaults. -/
def mkAuthRecord (env : Env) (session : Session) (ad : AuthData)
    (kind : ProofKind) : AuthRecord :=
  { success := true
    credential := jsOrStr ad.credential "test-credential-id"
    userEmail := jsOrOptStr ad.userEmail session.userEmail
    deviceInfo := ad.deviceInfo.getD ⟨"test", env.now⟩
    timestamp := env.now
    kind := kind }

/-- `handlePasskeyAuthSuccess`: silent return when the connection is
unregistered; error when `authData` is absent or the session is unknown;
otherwise store the proof record, ack the mobile, notify the desktop, and
either instruct the desktop to request location or broadcast
`access_granted` straight away. -/
def handlePasskeyAuthSuccess (env : Env) (st : RelayState) (ws : WsId)
    (connectionId : String) (authData : Option AuthData) :
    RelayState × List OutMsg :=
  match mapGet st.webSocketConnections connectionId with
  | none => (st, [])
  | some connection =>
    match authData with
    | none => (st, sendMessage env ws (.errorMsg "No authentication data received"))
    | some ad =>
      match mapGet st.webSocketSessions connection.sessionId with
      | some session =>
          let session' := { session with
            authData := some (mkAuthRecord env session ad .authentication) }
          let st' : RelayState :=
            ⟨mapSet st.webSocketSessions connection.sessionId session',
             st.webSocketConnections⟩
          (st',
           sendMessage env ws .passkey_verified_confirmed ++
           (match session.desktopWs with
            | some dws =>
                sendMessage env dws .passkey_verified ++
                (if session.requireLocation then
                   sendMessage env dws .request_location_from_mobile
                 else
                   broadcastToSession env st' connection.sessionId
                     .access_granted none)
            | none => []))
      | none => (st, sendMessage env ws (.errorMsg "Session not found"))

/-- `handlePasskeyCreated`: identical flow to `handlePasskeyAuthSuccess`
with the creation message types and `type: creation` in the record. -/
def handlePasskeyCreated (env : Env) (st : RelayState) (ws : WsId)
    (connectionId : String) (authData : Option AuthData) :
    RelayState × List OutMsg :=
  match mapGet st.webSocketConnections connectionId with
  | none => (st, [])
  | some connection =>
    match authData with
    | none => (st, sendMessage env ws (.errorMsg "No authentication data received"))
    | some ad =>
      match mapGet st.webSocketSessions connection.sessionId with
      | some session =>
          let session' := { session with
            authData := some (mkAuthRecord env session ad .creation) }
          let st' : RelayState :=
            ⟨mapSet st.webSocketSessions connection.sessionId session',
             st.webSocketConnections⟩
          (st',
           sendMessage env ws .passkey_created_confirmed ++
           (match session.desktopWs with
            | some dws =>
                sendMessage env dws .passkey_created_fwd ++
                (if session.requireLocation then
                   sendMessage env dws .request_location_from_mobile
                 else
                   broadcastToSession env st' connection.sessionId
                     .access_granted none)
            | none => []))
      | none => (st, sendMessage env ws (.errorMsg "Session not found"))

/-- `handleLocationRequest`: silent return when the connection is
unregistered; forwards `request_location` to the mobile slot whenever the
session exists and that slot is bound (no other precondition is checked);
otherwise replies a `Mobile device not connected` error.  Never mutates
state. -/
def handleLocationRequest (env : Env) (st : RelayState) (ws : WsId)
    (connectionId : String) : RelayState × List OutMsg :=
  match mapGet st.webSocketConnections connectionId with
  | none => (st, [])
  | some connection =>
    match mapGet st.webSocketSessions connection.sessionId with
    | some session =>
        match session.mobileWs with
        | some m => (st, sendMessage env m .request_location_fwd)
        | none =>
            (st, sendMessage env ws (.errorMsg "Mobile device not connected"))
    | none => (st, sendMessage env ws (.errorMsg "Mobile device not connected"))

/-- `handleLocationReceived`: needs a registered connection and a session
with a bound desktop slot; stores the location and forwards it to the
desktop, else replies a `Desktop not connected` error. -/
def handleLocationReceived (env : Env) (st : RelayState) (ws : WsId)
    (connectionId : String) (location : LocationRec) :
    RelayState × List OutMsg :=
  match mapGet st.webSocketConnections connectionId with
  | none => (st, [])
  | some connection =>
    match mapGet st.webSocketSessions connection.sessionId with
    | some session =>
        match session.desktopWs with
        | some dws =>
            let session' := { session with locationData := some location }
            (⟨mapSet st.webSocketSessions connection.sessionId session',
              st.webSocketConnections⟩,
             sendMessage env dws .location_received_fwd)
        | none =>
            (st, sendMessage env ws (.errorMsg "Desktop not connected"))
    | none => (st, sendMessage env ws (.errorMsg "Desktop not connected"))

/-- `handleLocationCheckComplete`: silent return when the connection is
unregistered; when the session exists, overwrite `locationCheckResult` and
broadcast `access_granted` or `access_denied` to both peers plus a mirrored
`location_check_complete` to the mobile; when the session is unknown the
failure is only logged — no error is sent to the sender. -/
def handleLocationCheckComplete (env : Env) (st : RelayState) (ws : WsId)
    (connectionId : String) (d : CheckCompleteData) :
    RelayState × List OutMsg :=
  match mapGet st.webSocketConnections connectionId with
  | none => (st, [])
  | some connection =>
    match mapGet st.webSocketSessions connection.sessionId with
    | some session =>
        let session' := { session with
          locationCheckResult := some ⟨d.success, d.distance, d.location, d.error⟩ }
        let st' : RelayState :=
          ⟨mapSet st.webSocketSessions connection.sessionId session',
           st.webSocketConnections⟩
        if d.success then
          (st',
           broadcastToSession env st' connection.sessionId .access_granted none ++
           (match session.mobileWs with
            | some m => sendMessage env m (.location_check_complete_out true)
            | none => []))
        else
          (st',
           broadcastToSession env st' connection.sessionId .access_denied none ++
           (match session.mobileWs with
            | some m => sendMessage env m (.location_check_complete_out false)
            | none => []))
    | none => (st, [])

/-- The `ws.on('message')` switch statement of part_004: dispatch by message
type; the default case replies an unknown-type error. -/
def routeMessage (env : Env) (st : RelayState) (ws : WsId)
    (connectionId : String) : ClientMsg → RelayState × List OutMsg
  | .register_desktop d => handleDesktopRegistration env st ws connectionId d
  | .register_mobile d => handleMobileRegistration env st ws connectionId d
  | .passkey_auth_success a => handlePasskeyAuthSuccess env st ws connectionId a
  | .passkey_created a => handlePasskeyCreated env st ws connectionId a
  | .request_location _ _ => handleLocationRequest env st ws connectionId
  | .location_received loc _ => handleLocationReceived env st ws connectionId loc
  | .location_check_complete d => handleLocationCheckComplete env st ws connectionId d
  | .ping => (st, sendMessage env ws .pong)
  | .unknownType t => (st, sendMessage env ws (.errorMsg ("Unknown message type: " ++ t)))

/-- The success precondition of each inbound message, read off the guard
conditions of the corresponding handler in part_004: true iff the handler
takes a failure branch (unregistered connection, unknown session, absent
required payload, or unbound target slot), or the type is unrecognized. -/
def precondFails (st : RelayState) (connectionId : String) : ClientMsg → Bool
  | .register_desktop _ => false
  | .register_mobile d => (mapGet st.webSocketSessions d.sessionId).isNone
  | .passkey_auth_success a =>
      match mapGet st.webSocketConnections connectionId with
      | none => true
      | some c => a.isNone || (mapGet st.webSocketSessions c.sessionId).isNone
  | .passkey_created a =>
      match mapGet st.webSocketConnections connectionId with
      | none => true
      | some c => a.isNone || (mapGet st.webSocketSessions c.sessionId).isNone
  | .request_location _ _ =>
      match mapGet st.webSocketConnections connectionId with
      | none => true
      | some c =>
          match mapGet st.webSocketSessions c.sessionId with
          | none => true
          | some s => s.mobileWs.isNone
  | .location_received _ _ =>
      match mapGet st.webSocketConnections connectionId with
      | none => true
      | some c =>
          match mapGet st.webSocketSessions c.sessionId with
          | none => true
          | some s => s.desktopWs.isNone
  | .location_check_complete _ =>
      match mapGet st.webSocketConnections connectionId with
      | none => true
      | some c => (mapGet st.webSocketSessions c.sessionId).isNone
  | .ping => false
  | .unknownType _ => true

/-! ### Concrete fixtures used by the closed-form checks -/

/-- Environment where every handle is open. -/
def envAllOpen : Env := ⟨fun _ => true, 1000⟩

/-- A stored proof record used by the fixtures. -/
def exAuthRecord : AuthRecord :=
  ⟨true, "cred-1", some "user@lab.test", ⟨"ios", 5⟩, 5, .authentication⟩

/-- A session with both peers bound and no proof attached yet. -/
def sessNoProof : Session :=
  { desktopWs := some 1
    mobileWs := some 2
    authData := none
    userEmail := some "user@lab.test"
    labName := some "Lab A"
    requireLocation := true
    mode := some "login"
    locationData := none
    locationCheckResult := none
    createdAt := 0 }

/-- A session that already carries a GeofenceOutcome (denied). -/
def sessResolved : Session :=
  { sessNoProof with
    authData := some exAuthRecord
    locationCheckResult := some ⟨false, some 120, none, some "Outside geofence"⟩ }

/-- A session with proof and location state attached, awaiting nothing. -/
def sessWithProof : Session :=
  { sessNoProof with
    authData := some exAuthRecord
    locationData := some ⟨.num 12, .num 77, none, none, none⟩ }

/-- A session with `requireLocation` disabled and both peers bound. -/
def sessNoLocNeeded : Session :=
  { sessNoProof with requireLocation := false }

/-- State for the silent-drop check: a registered desktop connection whose
session id is absent from the session store. -/
def stOrphanConn : RelayState :=
  ⟨[], [("c1", ⟨1, "S1", .desktop⟩)]⟩

/-- State whose session has no proof record but a bound mobile slot. -/
def stNoProof : RelayState :=
  ⟨[("S1", sessNoProof)], [("c1", ⟨1, "S1", .desktop⟩)]⟩

/-- State whose session already carries a GeofenceOutcome. -/
def stResolved : RelayState :=
  ⟨[("S1", sessResolved)], [("c1", ⟨1, "S1", .desktop⟩)]⟩

/-- State whose session carries proof and location state. -/
def stWithProof : RelayState :=
  ⟨[("S1", sessWithProof)], [("c1", ⟨1, "S1", .desktop⟩)]⟩

/-- State for the immediate-grant check: `requireLocation` off, both peers
bound, sender registered as the mobile of the session. -/
def stNoLocNeeded : RelayState :=
  ⟨[("S1", sessNoLocNeeded)], [("c2", ⟨2, "S1", .mobile⟩)]⟩

/-- A `register_mobile` payload that disables location checking. -/
def regMobNoLoc : RegMobileData :=
  ⟨"S1", some "user@lab.test", some "ch", some false, some "login"⟩

/-- A `register_mobile` payload naming an unknown session id. -/
def regMobUnknown : RegMobileData :=
  ⟨"S9", some "user@lab.test", none, none, none⟩

/-- A proof payload with every optional field absent. -/
def adEmpty : AuthData := ⟨none, none, none⟩

/-! ### Helper lemmas -/

theorem mapGet_mapSet_self {α : Type} (m : List (String × α)) (k : String)
    (v : α) : mapGet (mapSet m k v) k = some v := by
  induction m with
  | nil => simp [mapGet, mapSet]
  | cons hd tl ih =>
      obtain ⟨k', v'⟩ := hd
      by_cases h : k' = k
      · simp [mapGet, mapSet, h]
      · simp [mapGet, mapSet, h, ih]

theorem mapGet_mapSet_ne {α : Type} (m : List (String × α)) (k k' : String)
    (v : α) (h : k ≠ k') : mapGet (mapSet m k v) k' = mapGet m k' := by
  induction m with
  | nil => simp [mapGet, mapSet, h]
  | cons hd tl ih =>
      obtain ⟨k0, v0⟩ := hd
      by_cases h0 : k0 = k
      · subst h0; simp [mapGet, mapSet, h]
      · simp only [mapSet, if_neg h0, mapGet]
        by_cases h1 : k0 = k'
        · simp [h1]
        · simp [h1, ih]

theorem sendMessage_cases (env : Env) (w : WsId) (p : OutPayload) :
    sendMessage env w p = [] ∨ sendMessage env w p = [⟨w, p⟩] := by
  unfold sendMessage
  split
  · exact Or.inr rfl
  · exact Or.inl rfl

theorem sendMessage_of_live (env : Env) (w : WsId) (p : OutPayload)
    (h : env.isLive w = true) : sendMessage env w p = [⟨w, p⟩] := by
  simp [sendMessage, h]

/-! ### C1 — geofence tolerance policy -/

/-- C1 (counterexample): the tolerance the evaluator adds to the nominal
radius is 30 meters at radius 10, so the claimed band (tolerance 0 at
radius 10, at most 5 at radius 20, at most 20 at radius 100) fails. -/
theorem geofence_tolerance_not_banded_cex :
    geofenceTolerance 10 = 30 ∧
    ¬(geofenceTolerance 10 = 0 ∧ geofenceTolerance 20 ≤ 5 ∧
      geofenceTolerance 100 ≤ 20) := by
  constructor
  · norm_num [geofenceTolerance, effectiveRadius, GPS_ACCURACY_BUFFER]
  · intro h
    have := h.1
    norm_num [geofenceTolerance, effectiveRadius, GPS_ACCURACY_BUFFER] at this

/-- C1 (amended): the tolerance added to the nominal radius is the constant
`GPS_ACCURACY_BUFFER` of 30 meters for every radius — trivially monotonically
non-decreasing, and every successful `isWithinGeofence` result has an
effective radius exceeding the nominal radius by exactly 30. -/
theorem geofence_tolerance_constant (r : ℚ) :
    geofenceTolerance r = 30 ∧
    (∀ r', r ≤ r' → geofenceTolerance r ≤ geofenceTolerance r') ∧
    (∀ dist u l res,
        isWithinGeofence dist (some u) (some l) r = .ok res →
        res.effRadius - res.radiusInMeters = 30) := by
  have hconst : ∀ x : ℚ, geofenceTolerance x = 30 := by
    intro x
    unfold geofenceTolerance effectiveRadius GPS_ACCURACY_BUFFER
    ring
  refine ⟨hconst r, fun r' _ => by rw [hconst r, hconst r'], ?_⟩
  intro dist u l res h
  by_cases h1 : validateLocation u.latitude u.longitude
  · by_cases h2 : validateLocation l.latitude l.longitude
    · simp only [isWithinGeofence, h1, h2, Bool.not_true, Bool.false_eq_true,
        if_false, Except.ok.injEq] at h
      rw [← h]
      show r + GPS_ACCURACY_BUFFER - r = 30
      unfold GPS_ACCURACY_BUFFER
      ring
    · simp [isWithinGeofence, h1, h2] at h
  · simp [isWithinGeofence, h1] at h

/-- C1 (witness): the amended statement instantiated at radius 10, with the
monotonicity hypothesis discharged at radii 10 and 20 and the evaluator run
on a concrete in-range input. -/
theorem geofence_tolerance_constant_witness :
    geofenceTolerance 10 = 30 ∧
    geofenceTolerance 10 ≤ geofenceTolerance 20 := by
  refine ⟨(geofence_tolerance_constant 10).1, ?_⟩
  exact (geofence_tolerance_constant 10).2.1 20 (by norm_num)

/-! ### C8 — geofence input validation -/

/-- C8: the evaluator succeeds exactly when both points validate; a numeric
pair validates exactly when latitude lies in the interval from -90 to 90 and
longitude in the interval from -180 to 180; any NaN coordinate fails
validation; and the origin point latitude 0, longitude 0 is accepted — both
by `validateLocation` and by a full `isWithinGeofence` run. -/
theorem geofence_validation_exact (dist : ℚ → ℚ → ℚ → ℚ → ℚ)
    (u l : JsLoc) (radius : ℚ) :
    (geofenceOk (isWithinGeofence dist (some u) (some l) radius) = true ↔
      (validateLocation u.latitude u.longitude = true ∧
       validateLocation l.latitude l.longitude = true)) ∧
    (∀ la lo : ℚ,
        validateLocation (.num la) (.num lo) = true ↔
        (-90 ≤ la ∧ la ≤ 90 ∧ -180 ≤ lo ∧ lo ≤ 180)) ∧
    (∀ a b : JsNum, (a.isNaN = true ∨ b.isNaN = true) →
        validateLocation a b = false) ∧
    validateLocation (.num 0) (.num 0) = true ∧
    geofenceOk (isWithinGeofence dist (some ⟨.num 0, .num 0⟩)
        (some ⟨.num 0, .num 0⟩) radius) = true := by
  refine ⟨?_, ?_, ?_, ?_, ?_⟩
  · by_cases h1 : validateLocation u.latitude u.longitude
    · by_cases h2 : validateLocation l.latitude l.longitude
      · simp [isWithinGeofence, geofenceOk, h1, h2]
      · simp [isWithinGeofence, geofenceOk, h1, h2]
    · simp [isWithinGeofence, geofenceOk, h1]
  · intro la lo
    simp [validateLocation, and_assoc]
  · intro a b h
    rcases h with h | h
    · cases a with
      | num q => simp [JsNum.isNaN] at h
      | nan => simp [validateLocation]
    · cases b with
      | num q =>  simp [JsNum.isNaN] at h
      | nan =>
          cases a with
          | num q => simp [validateLocation]
          | nan => simp [validateLocation]
  · norm_num [validateLocation]
  · have h0 : validateLocation (.num 0) (.num 0) = true := by
      norm_num [validateLocation]
    simp [isWithinGeofence, geofenceOk, h0]

/-- C8 (witness): the validation characterization applied at the origin and
at a NaN latitude. -/
theorem geofence_validation_exact_witness :
    validateLocation (.num 0) (.num 0) = true ∧
    validateLocation .nan (.num 0) = false := by
  refine ⟨(geofence_validation_exact (fun _ _ _ _ => 0)
      ⟨.num 0, .num 0⟩ ⟨.num 0, .num 0⟩ 20).2.2.2.1, ?_⟩
  exact (geofence_validation_exact (fun _ _ _ _ => 0)
      ⟨.num 0, .num 0⟩ ⟨.num 0, .num 0⟩ 20).2.2.1 .nan (.num 0) (Or.inl rfl)

/-! ### C2 — failure handling by the router -/

/-- C2 (counterexample): a `location_check_complete` naming a session id
absent from the session store is a precondition failure, yet the router
sends nothing back to the sender (the handler only logs), refuting the
claim that every such failure is answered with an error message. -/
theorem location_check_unknown_session_silent_cex :
    precondFails stOrphanConn "c1"
      (.location_check_complete ⟨true, none, none, none⟩) = true ∧
    (routeMessage envAllOpen stOrphanConn 1 "c1"
        (.location_check_complete ⟨true, none, none, none⟩)).2 = [] ∧
    (routeMessage envAllOpen stOrphanConn 1 "c1"
        (.location_check_complete ⟨true, none, none, none⟩)).1 = stOrphanConn := by
  decide

/-- C2 (amended): for every inbound message whose precondition fails and for
every unrecognized type, the router emits at most an error reply to the
sending connection — some failures (an unregistered sender, and a
`location_check_complete` naming an unknown session) produce no reply at
all — and never mutates the session store. -/
theorem router_failure_at_most_error (env : Env) (st : RelayState)
    (ws : WsId) (cid : String) (m : ClientMsg)
    (h : precondFails st cid m = true) :
    (routeMessage env st ws cid m).1.webSocketSessions = st.webSocketSessions ∧
    ((routeMessage env st ws cid m).2 = [] ∨
      ∃ e, (routeMessage env st ws cid m).2 = [⟨ws, .errorMsg e⟩]) := by
  have atMost : ∀ e : String,
      sendMessage env ws (.errorMsg e) = [] ∨
      ∃ e', sendMessage env ws (.errorMsg e) = [⟨ws, .errorMsg e'⟩] := by
    intro e
    rcases sendMessage_cases env ws (.errorMsg e) with h' | h'
    · exact Or.inl h'
    · exact Or.inr ⟨e, h'⟩
  cases m with
  | register_desktop d => simp [precondFails] at h
  | ping => simp [precondFails] at h
  | unknownType t =>
      refine ⟨rfl, ?_⟩
      simpa [routeMessage] using atMost ("Unknown message type: " ++ t)
  | register_mobile d =>
      cases hs : mapGet st.webSocketSessions d.sessionId with
      | some s => simp [precondFails, hs] at h
      | none =>
          constructor
          · simp [routeMessage, handleMobileRegistration, hs]
          · have hout : (routeMessage env st ws cid (.register_mobile d)).2 =
                sendMessage env ws (.errorMsg "Invalid session ID") := by
              simp [routeMessage, handleMobileRegistration, hs]
            rw [hout]; exact atMost _
  | passkey_auth_success a =>
      cases hc : mapGet st.webSocketConnections cid with
      | none =>
          exact ⟨by simp [routeMessage, handlePasskeyAuthSuccess, hc],
            Or.inl (by simp [routeMessage, handlePasskeyAuthSuccess, hc])⟩
      | some c =>
          cases a with
          | none =>
              constructor
              · simp [routeMessage, handlePasskeyAuthSuccess, hc]
              · have hout : (routeMessage env st ws cid (.passkey_auth_success none)).2 =
                    sendMessage env ws (.errorMsg "No authentication data received") := by
                  simp [routeMessage, handlePasskeyAuthSuccess, hc]
                rw [hout]; exact atMost _
          | some ad =>
              cases hs : mapGet st.webSocketSessions c.sessionId with
              | some s => simp [precondFails, hc, hs] at h
              | none =>
                  constructor
                  · simp [routeMessage, handlePasskeyAuthSuccess, hc, hs]
                  · have hout : (routeMessage env st ws cid
                        (.passkey_auth_success (some ad))).2 =
                        sendMessage env ws (.errorMsg "Session not found") := by
                      simp [routeMessage, handlePasskeyAuthSuccess, hc, hs]
                    rw [hout]; exact atMost _
  | passkey_created a =>
      cases hc : mapGet st.webSocketConnections cid with
      | none =>
          exact ⟨by simp [routeMessage, handlePasskeyCreated, hc],
            Or.inl (by simp [routeMessage, handlePasskeyCreated, hc])⟩
      | some c =>
          cases a with
          | none =>
              constructor
              · simp [routeMessage, handlePasskeyCreated, hc]
              · have hout : (routeMessage env st ws cid (.passkey_created none)).2 =
                    sendMessage env ws (.errorMsg "No authentication data received") := by
                  simp [routeMessage, handlePasskeyCreated, hc]
                rw [hout]; exact atMost _
          | some ad =>
              cases hs : mapGet st.webSocketSessions c.sessionId with
              | some s => simp [precondFails, hc, hs] at h
              | none =>
                  constructor
                  · simp [routeMessage, handlePasskeyCreated, hc, hs]
                  · have hout : (routeMessage env st ws cid
                        (.passkey_created (some ad))).2 =
                        sendMessage env ws (.errorMsg "Session not found") := by
                      simp [routeMessage, handlePasskeyCreated, hc, hs]
                    rw [hout]; exact atMost _
  | request_location a rid =>
      cases hc : mapGet st.webSocketConnections cid with
      | none =>
          exact ⟨by simp [routeMessage, handleLocationRequest, hc],
            Or.inl (by simp [routeMessage, handleLocationRequest, hc])⟩
      | some c =>
          cases hs : mapGet st.webSocketSessions c.sessionId with
          | none =>
              constructor
              · simp [routeMessage, handleLocationRequest, hc, hs]
              · have hout : (routeMessage env st ws cid (.request_location a rid)).2 =
                    sendMessage env ws (.errorMsg "Mobile device not connected") := by
                  simp [routeMessage, handleLocationRequest, hc, hs]
                rw [hout]; exact atMost _
          | some s =>
              cases hm : s.mobileWs with
              | some mws => simp [precondFails, hc, hs, hm] at h
              | none =>
                  constructor
                  · simp [routeMessage, handleLocationRequest, hc, hs, hm]
                  · have hout : (routeMessage env st ws cid (.request_location a rid)).2 =
                        sendMessage env ws (.errorMsg "Mobile device not connected") := by
                      simp [routeMessage, handleLocationRequest, hc, hs, hm]
                    rw [hout]; exact atMost _
  | location_received loc a =>
      cases hc : mapGet st.webSocketConnections cid with
      | none =>
          exact ⟨by simp [routeMessage, handleLocationReceived, hc],
            Or.inl (by simp [routeMessage, handleLocationReceived, hc])⟩
      | some c =>
          cases hs : mapGet st.webSocketSessions c.sessionId with
          | none =>
              constructor
              · simp [routeMessage, handleLocationReceived, hc, hs]
              · have hout : (routeMessage env st ws cid (.location_received loc a)).2 =
                    sendMessage env ws (.errorMsg "Desktop not connected") := by
                  simp [routeMessage, handleLocationReceived, hc, hs]
                rw [hout]; exact atMost _
          | some s =>
              cases hd : s.desktopWs with
              | some dws => simp [precondFails, hc, hs, hd] at h
              | none =>
                  constructor
                  · simp [routeMessage, handleLocationReceived, hc, hs, hd]
                  · have hout : (routeMessage env st ws cid (.location_received loc a)).2 =
                        sendMessage env ws (.errorMsg "Desktop not connected") := by
                      simp [routeMessage, handleLocationReceived, hc, hs, hd]
                    rw [hout]; exact atMost _
  | location_check_complete d =>
      cases hc : mapGet st.webSocketConnections cid with
      | none =>
          exact ⟨by simp [routeMessage, handleLocationCheckComplete, hc],
            Or.inl (by simp [routeMessage, handleLocationCheckComplete, hc])⟩
      | some c =>
          cases hs : mapGet st.webSocketSessions c.sessionId with
          | some s => simp [precondFails, hc, hs] at h
          | none =>
              exact ⟨by simp [routeMessage, handleLocationCheckComplete, hc, hs],
                Or.inl (by simp [routeMessage, handleLocationCheckComplete, hc, hs])⟩

/-- C2 (witness): the amended theorem applied to an unrecognized message
type on a concrete state. -/
theorem router_failure_at_most_error_witness :
    precondFails stOrphanConn "c9" (.unknownType "bogus") = true ∧
    ((routeMessage envAllOpen stOrphanConn 9 "c9" (.unknownType "bogus")).1.webSocketSessions =
        stOrphanConn.webSocketSessions ∧
      ((routeMessage envAllOpen stOrphanConn 9 "c9" (.unknownType "bogus")).2 = [] ∨
        ∃ e, (routeMessage envAllOpen stOrphanConn 9 "c9" (.unknownType "bogus")).2 =
          [⟨9, .errorMsg e⟩])) :=
  ⟨rfl, router_failure_at_most_error envAllOpen stOrphanConn 9 "c9"
    (.unknownType "bogus") rfl⟩

/-! ### C3 — request_location forwarding -/

/-- C3 (counterexample): the session of `stNoProof` has no authentication
proof record, yet `request_location` is forwarded to its mobile connection,
refuting the claim that forwarding requires a proof record. -/
theorem location_request_forwards_without_proof_cex :
    sessNoProof.authData = none ∧
    (routeMessage envAllOpen stNoProof 1 "c1" (.request_location none none)).2 =
      [⟨2, .request_location_fwd⟩] ∧
    (routeMessage envAllOpen stNoProof 1 "c1" (.request_location none none)).1 =
      stNoProof := by
  decide

/-- C3 (amended): with the sender's connection registered, `request_location`
is forwarded to the session's mobile slot precisely when the session exists
and that slot is bound — the proof record is never consulted — and is
otherwise answered with a mobile-not-connected error to the sender; an
unregistered sender gets no reply; the state is never mutated. -/
theorem location_request_forward_behavior (env : Env) (st : RelayState)
    (ws : WsId) (cid : String) (a : Option AuthData) (rid : Option String)
    (hlive : ∀ w, env.isLive w = true) :
    (routeMessage env st ws cid (.request_location a rid)).1 = st ∧
    (mapGet st.webSocketConnections cid = none →
      (routeMessage env st ws cid (.request_location a rid)).2 = []) ∧
    (∀ c, mapGet st.webSocketConnections cid = some c →
      (∀ s, mapGet st.webSocketSessions c.sessionId = some s →
        (∀ m, s.mobileWs = some m →
          (routeMessage env st ws cid (.request_location a rid)).2 =
            [⟨m, .request_location_fwd⟩]) ∧
        (s.mobileWs = none →
          (routeMessage env st ws cid (.request_location a rid)).2 =
            [⟨ws, .errorMsg "Mobile device not connected"⟩])) ∧
      (mapGet st.webSocketSessions c.sessionId = none →
        (routeMessage env st ws cid (.request_location a rid)).2 =
          [⟨ws, .errorMsg "Mobile device not connected"⟩])) := by
  refine ⟨?_, ?_, ?_⟩
  · cases hc : mapGet st.webSocketConnections cid with
    | none => simp [routeMessage, handleLocationRequest, hc]
    | some c =>
        cases hs : mapGet st.webSocketSessions c.sessionId with
        | none => simp [routeMessage, handleLocationRequest, hc, hs]
        | some s =>
            cases hm : s.mobileWs with
            | none => simp [routeMessage, handleLocationRequest, hc, hs, hm]
            | some m => simp [routeMessage, handleLocationRequest, hc, hs, hm]
  · intro hc
    simp [routeMessage, handleLocationRequest, hc]
  · intro c hc
    refine ⟨?_, ?_⟩
    · intro s hs
      refine ⟨?_, ?_⟩
      · intro m hm
        simp [routeMessage, handleLocationRequest, hc, hs, hm,
          sendMessage_of_live env m _ (hlive m)]
      · intro hm
        simp [routeMessage, handleLocationRequest, hc, hs, hm,
          sendMessage_of_live env ws _ (hlive ws)]
    · intro hs
      simp [routeMessage, handleLocationRequest, hc, hs,
        sendMessage_of_live env ws _ (hlive ws)]

/-- C3 (witness): the amended behavior evaluated on a proof-less session
with a bound mobile slot. -/
theorem location_request_forward_behavior_witness :
    (routeMessage envAllOpen stNoProof 1 "c1" (.request_location none none)).1 =
      stNoProof ∧
    (routeMessage envAllOpen stNoProof 1 "c1" (.request_location none none)).2 =
      [⟨2, .request_location_fwd⟩] := by
  have h := location_request_forward_behavior envAllOpen stNoProof 1 "c1"
      none none (fun _ => rfl)
  exact ⟨h.1, ((h.2.2 ⟨1, "S1", .desktop⟩ rfl).1 sessNoProof rfl).1 2 rfl⟩

/-! ### C4 — register_mobile on an unknown session -/

/-- C4: a `register_mobile` naming a session id for which no session exists
is answered with the `Invalid session ID` error and creates no session: the
session store is left exactly as it was, still with no entry for that id. -/
theorem register_mobile_unknown_session_rejected (env : Env) (st : RelayState)
    (ws : WsId) (cid : String) (d : RegMobileData)
    (h : mapGet st.webSocketSessions d.sessionId = none)
    (hlive : env.isLive ws = true) :
    (routeMessage env st ws cid (.register_mobile d)).1.webSocketSessions =
      st.webSocketSessions ∧
    mapGet (routeMessage env st ws cid (.register_mobile d)).1.webSocketSessions
      d.sessionId = none ∧
    (routeMessage env st ws cid (.register_mobile d)).2 =
      [⟨ws, .errorMsg "Invalid session ID"⟩] := by
  refine ⟨?_, ?_, ?_⟩
  · simp [routeMessage, handleMobileRegistration, h]
  · simp [routeMessage, handleMobileRegistration, h]
  · simp [routeMessage, handleMobileRegistration, h,
      sendMessage_of_live env ws _ hlive]

/-- C4 (witness): the rejection evaluated on the empty store. -/
theorem register_mobile_unknown_session_rejected_witness :
    (routeMessage envAllOpen ⟨[], []⟩ 2 "c2" (.register_mobile regMobUnknown)).2 =
      [⟨2, .errorMsg "Invalid session ID"⟩] :=
  (register_mobile_unknown_session_rejected envAllOpen ⟨[], []⟩ 2 "c2"
    regMobUnknown rfl rfl).2.2

/-! ### C5 — immediate grant when requireLocation is off -/

/-- C5: for a session with `requireLocation` false and both peers bound, a
successful proof message of either kind emits exactly one `access_granted`
send to the desktop and exactly one to the mobile, and no instruction to
request location. -/
theorem proof_success_immediate_grant (env : Env) (st : RelayState)
    (ws : WsId) (cid : String) (c : Conn) (sess : Session) (dws mws : WsId)
    (ad : AuthData)
    (hc : mapGet st.webSocketConnections cid = some c)
    (hs : mapGet st.webSocketSessions c.sessionId = some sess)
    (hreq : sess.requireLocation = false)
    (hd : sess.desktopWs = some dws)
    (hm : sess.mobileWs = some mws)
    (hlive : ∀ w, env.isLive w = true) :
    ((routeMessage env st ws cid (.passkey_auth_success (some ad))).2.filter
        (fun o => o.payload == OutPayload.access_granted) =
      [⟨dws, .access_granted⟩, ⟨mws, .access_granted⟩]) ∧
    ((routeMessage env st ws cid (.passkey_auth_success (some ad))).2.filter
        (fun o => o.payload == OutPayload.request_location_from_mobile) = []) ∧
    ((routeMessage env st ws cid (.passkey_created (some ad))).2.filter
        (fun o => o.payload == OutPayload.access_granted) =
      [⟨dws, .access_granted⟩, ⟨mws, .access_granted⟩]) ∧
    ((routeMessage env st ws cid (.passkey_created (some ad))).2.filter
        (fun o => o.payload == OutPayload.request_location_from_mobile) = []) := by
  have hout1 : (routeMessage env st ws cid (.passkey_auth_success (some ad))).2 =
      [⟨ws, .passkey_verified_confirmed⟩, ⟨dws, .passkey_verified⟩,
       ⟨dws, .access_granted⟩, ⟨mws, .access_granted⟩] := by
    simp [routeMessage, handlePasskeyAuthSuccess, hc, hs, hreq, hd, hm,
      broadcastToSession, mapGet_mapSet_self, sendMessage, hlive]
  have hout2 : (routeMessage env st ws cid (.passkey_created (some ad))).2 =
      [⟨ws, .passkey_created_confirmed⟩, ⟨dws, .passkey_created_fwd⟩,
       ⟨dws, .access_granted⟩, ⟨mws, .access_granted⟩] := by
    simp [routeMessage, handlePasskeyCreated, hc, hs, hreq, hd, hm,
      broadcastToSession, mapGet_mapSet_self, sendMessage, hlive]
  rw [hout1, hout2]
  refine ⟨rfl, rfl, rfl, rfl⟩

/-- C5 (witness): the immediate grant evaluated on a concrete session with
`requireLocation` off. -/
theorem proof_success_immediate_grant_witness :
    (routeMessage envAllOpen stNoLocNeeded 2 "c2"
        (.passkey_auth_success (some adEmpty))).2.filter
        (fun o => o.payload == OutPayload.access_granted) =
      [⟨1, .access_granted⟩, ⟨2, .access_granted⟩] :=
  (proof_success_immediate_grant envAllOpen stNoLocNeeded 2 "c2"
    ⟨2, "S1", .mobile⟩ sessNoLocNeeded 1 2 adEmpty rfl rfl rfl rfl rfl
    (fun _ => rfl)).1

/-! ### C6 — a stored GeofenceOutcome is not terminal -/

/-- C6 (counterexample): a session that already carries a GeofenceOutcome is
mutated again by a second `location_check_complete`, which also emits a
fresh `access_granted` broadcast — refuting the claim that no subsequently
processed message mutates the session or emits further broadcasts. -/
theorem second_check_complete_mutates_cex :
    mapGet stResolved.webSocketSessions "S1" = some sessResolved ∧
    sessResolved.locationCheckResult.isSome = true ∧
    (mapGet (routeMessage envAllOpen stResolved 1 "c1"
        (.location_check_complete ⟨true, some 10, none, none⟩)).1.webSocketSessions
        "S1" ≠ some sessResolved) ∧
    ((routeMessage envAllOpen stResolved 1 "c1"
        (.location_check_complete ⟨true, some 10, none, none⟩)).2.filter
        (fun o => o.payload == OutPayload.access_granted) ≠ []) := by
  decide

/-- C6 (amended): a session that already carries a GeofenceOutcome is not
terminal: a later `location_check_complete` is processed exactly like the
first — it overwrites the stored outcome and re-broadcasts `access_granted`
or `access_denied` to both bound peers plus a mirror to the mobile. -/
theorem outcome_not_terminal (env : Env) (st : RelayState) (ws : WsId)
    (cid : String) (c : Conn) (sess : Session) (r0 : CheckResult)
    (dws mws : WsId) (d : CheckCompleteData)
    (hc : mapGet st.webSocketConnections cid = some c)
    (hs : mapGet st.webSocketSessions c.sessionId = some sess)
    (hr : sess.locationCheckResult = some r0)
    (hd : sess.desktopWs = some dws)
    (hm : sess.mobileWs = some mws)
    (hlive : ∀ w, env.isLive w = true) :
    (mapGet (routeMessage env st ws cid
        (.location_check_complete d)).1.webSocketSessions c.sessionId =
      some { sess with
        locationCheckResult := some ⟨d.success, d.distance, d.location, d.error⟩ }) ∧
    (d.success = true →
      (routeMessage env st ws cid (.location_check_complete d)).2 =
        [⟨dws, .access_granted⟩, ⟨mws, .access_granted⟩,
         ⟨mws, .location_check_complete_out true⟩]) ∧
    (d.success = false →
      (routeMessage env st ws cid (.location_check_complete d)).2 =
        [⟨dws, .access_denied⟩, ⟨mws, .access_denied⟩,
         ⟨mws, .location_check_complete_out false⟩]) := by
  refine ⟨?_, ?_, ?_⟩
  · by_cases hsuc : d.success
    · simp [routeMessage, handleLocationCheckComplete, hc, hs, hsuc,
        mapGet_mapSet_self]
    · simp [routeMessage, handleLocationCheckComplete, hc, hs, hsuc,
        mapGet_mapSet_self]
  · intro hsuc
    simp [routeMessage, handleLocationCheckComplete, hc, hs, hsuc, hd, hm,
      broadcastToSession, mapGet_mapSet_self, sendMessage, hlive]
  · intro hsuc
    simp [routeMessage, handleLocationCheckComplete, hc, hs, hsuc, hd, hm,
      broadcastToSession, mapGet_mapSet_self, sendMessage, hlive]

/-- C6 (witness): the overwrite evaluated on a concrete session that already
carries a denied outcome. -/
theorem outcome_not_terminal_witness :
    mapGet (routeMessage envAllOpen stResolved 1 "c1"
        (.location_check_complete ⟨true, some 10, none, none⟩)).1.webSocketSessions
        "S1" =
      some { sessResolved with
        locationCheckResult := some ⟨true, some 10, none, none⟩ } :=
  (outcome_not_terminal envAllOpen stResolved 1 "c1" ⟨1, "S1", .desktop⟩
    sessResolved ⟨false, some 120, none, some "Outside geofence"⟩ 1 2
    ⟨true, some 10, none, none⟩ rfl rfl rfl rfl rfl (fun _ => rfl)).1

/-! ### C7 — reconnection keeps proof and location state -/

/-- C7 (counterexample): re-registering the mobile role rewrites more than
the mobile connection slot: with a payload carrying `requireLocation` false,
the stored session's flag flips, so the result differs from the previous
session with only the mobile slot rebound. -/
theorem mobile_reregistration_overwrites_flags_cex :
    mapGet (routeMessage envAllOpen stWithProof 3 "c3"
        (.register_mobile regMobNoLoc)).1.webSocketSessions "S1" ≠
      some { sessWithProof with mobileWs := some 3 } ∧
    mapGet (routeMessage envAllOpen stWithProof 3 "c3"
        (.register_mobile regMobNoLoc)).1.webSocketSessions "S1" =
      some { sessWithProof with mobileWs := some 3, requireLocation := false } := by
  decide

/-- C7 (amended): re-registering the desktop role rebinds exactly the
desktop slot; re-registering the mobile role rebinds the mobile slot and
also overwrites the `requireLocation` flag and the `mode`; in both cases the
stored proof record, location record and outcome are untouched, so a
reconnecting peer resumes with prior proof and location state intact. -/
theorem reregistration_preserves_proof_location (env : Env) (st : RelayState)
    (ws : WsId) (cid : String) :
    (∀ d sess, mapGet st.webSocketSessions d.sessionId = some sess →
      mapGet (routeMessage env st ws cid
          (.register_desktop d)).1.webSocketSessions d.sessionId =
        some { sess with desktopWs := some ws }) ∧
    (∀ d sess, mapGet st.webSocketSessions d.sessionId = some sess →
      mapGet (routeMessage env st ws cid
          (.register_mobile d)).1.webSocketSessions d.sessionId =
        some { sess with
          mobileWs := some ws
          requireLocation := d.requireLocation.getD true
          mode := some (jsOrStr d.mode "login") }) := by
  constructor
  · intro d sess hs
    simp [routeMessage, handleDesktopRegistration, hs, mapGet_mapSet_self]
  · intro d sess hs
    simp [routeMessage, handleMobileRegistration, hs, mapGet_mapSet_self]

/-- C7 (witness): a desktop re-registration on a session carrying proof and
location state rebinds the slot and keeps both records. -/
theorem reregistration_preserves_proof_location_witness :
    mapGet (routeMessage envAllOpen stWithProof 5 "c5"
        (.register_desktop ⟨"S1", some "user@lab.test", some "Lab A"⟩)).1.webSocketSessions
        "S1" = some { sessWithProof with desktopWs := some 5 } :=
  (reregistration_preserves_proof_location envAllOpen stWithProof 5 "c5").1
    ⟨"S1", some "user@lab.test", some "Lab A"⟩ sessWithProof rfl

/-! ### C9 — stored proof records trust the payload -/

/-- C9: every proof record the relay stores has success hard-coded to true
regardless of the payload, and absent payload fields get the fixed defaults:
the test-credential-id token, the session's declared email, and the
placeholder device descriptor. -/
theorem stored_proof_record_defaults (env : Env) (st : RelayState) (ws : WsId)
    (cid : String) (c : Conn) (sess : Session) (ad : AuthData)
    (hc : mapGet st.webSocketConnections cid = some c)
    (hs : mapGet st.webSocketSessions c.sessionId = some sess) :
    (mapGet (routeMessage env st ws cid
        (.passkey_auth_success (some ad))).1.webSocketSessions c.sessionId =
      some { sess with
        authData := some (mkAuthRecord env sess ad .authentication) }) ∧
    (mapGet (routeMessage env st ws cid
        (.passkey_created (some ad))).1.webSocketSessions c.sessionId =
      some { sess with authData := some (mkAuthRecord env sess ad .creation) }) ∧
    (∀ kind, (mkAuthRecord env sess ad kind).success = true) ∧
    (ad.credential = none →
      ∀ kind, (mkAuthRecord env sess ad kind).credential = "test-credential-id") ∧
    (ad.userEmail = none →
      ∀ kind, (mkAuthRecord env sess ad kind).userEmail = sess.userEmail) ∧
    (ad.deviceInfo = none →
      ∀ kind, (mkAuthRecord env sess ad kind).deviceInfo = ⟨"test", env.now⟩) := by
  refine ⟨?_, ?_, fun _ => rfl, ?_, ?_, ?_⟩
  · simp [routeMessage, handlePasskeyAuthSuccess, hc, hs, mapGet_mapSet_self]
  · simp [routeMessage, handlePasskeyCreated, hc, hs, mapGet_mapSet_self]
  · intro h kind; simp [mkAuthRecord, jsOrStr, h]
  · intro h kind; simp [mkAuthRecord, jsOrOptStr, jsTruthy, h]
  · intro h kind; simp [mkAuthRecord, h]

/-- C9 (witness): the stored record evaluated on an all-absent payload. -/
theorem stored_proof_record_defaults_witness :
    mapGet (routeMessage envAllOpen stNoLocNeeded 2 "c2"
        (.passkey_auth_success (some adEmpty))).1.webSocketSessions "S1" =
      some { sessNoLocNeeded with
        authData := some (mkAuthRecord envAllOpen sessNoLocNeeded adEmpty
          .authentication) } ∧
    (mkAuthRecord envAllOpen sessNoLocNeeded adEmpty .authentication).success =
      true := by
  have h := stored_proof_record_defaults envAllOpen stNoLocNeeded 2 "c2"
      ⟨2, "S1", .mobile⟩ sessNoLocNeeded adEmpty rfl rfl
  exact ⟨h.1, h.2.2.1 .authentication⟩

/-! ### C10 — failed register_mobile still mutates the connection registry -/

/-- C10: a `register_mobile` naming an unknown session id records the
sender's connection entry (role mobile, the unknown id) before the failure
is detected, while the session store stays unchanged; a later proof message
from that sender then finds its connection entry but fails session lookup,
receiving the Session-not-found error without any state change. -/
theorem register_mobile_unknown_mutates_registry (env : Env) (st : RelayState)
    (ws : WsId) (cid : String) (d : RegMobileData) (ad : AuthData)
    (h : mapGet st.webSocketSessions d.sessionId = none)
    (hlive : env.isLive ws = true) :
    mapGet (routeMessage env st ws cid
        (.register_mobile d)).1.webSocketConnections cid =
      some ⟨ws, d.sessionId, .mobile⟩ ∧
    (routeMessage env st ws cid (.register_mobile d)).1.webSocketSessions =
      st.webSocketSessions ∧
    (routeMessage env (routeMessage env st ws cid (.register_mobile d)).1 ws cid
        (.passkey_auth_success (some ad))).2 =
      [⟨ws, .errorMsg "Session not found"⟩] ∧
    (routeMessage env (routeMessage env st ws cid (.register_mobile d)).1 ws cid
        (.passkey_auth_success (some ad))).1 =
      (routeMessage env st ws cid (.register_mobile d)).1 := by
  have hroute : (routeMessage env st ws cid (.register_mobile d)).1 =
      ⟨st.webSocketSessions,
       mapSet st.webSocketConnections cid ⟨ws, d.sessionId, .mobile⟩⟩ := by
    simp [routeMessage, handleMobileRegistration, h]
  rw [hroute]
  refine ⟨mapGet_mapSet_self _ _ _, rfl, ?_, ?_⟩
  · simp [routeMessage, handlePasskeyAuthSuccess, mapGet_mapSet_self, h,
      sendMessage_of_live env ws _ hlive]
  · simp [routeMessage, handlePasskeyAuthSuccess, mapGet_mapSet_self, h]

/-- C10 (witness): the registry mutation and the subsequent failed lookup
evaluated from the empty store. -/
theorem register_mobile_unknown_mutates_registry_witness :
    mapGet (routeMessage envAllOpen ⟨[], []⟩ 2 "c2"
        (.register_mobile regMobUnknown)).1.webSocketConnections "c2" =
      some ⟨2, "S9", .mobile⟩ ∧
    (routeMessage envAllOpen (routeMessage envAllOpen ⟨[], []⟩ 2 "c2"
        (.register_mobile regMobUnknown)).1 2 "c2"
        (.passkey_auth_success (some adEmpty))).2 =
      [⟨2, .errorMsg "Session not found"⟩] := by
  have h := register_mobile_unknown_mutates_registry envAllOpen ⟨[], []⟩ 2 "c2"
      regMobUnknown adEmpty rfl rfl
  exact ⟨h.1, h.2.2.1⟩

end LabRelay
